import Mathlib

/-!
Verification of the note-persistence and directory-export core of the
MyDiary web application (src/lib/file-storage.ts, the save handler of
src/components/create-note-dialog.tsx, the export/import/delete handlers
of src/components/settings-view.tsx, and the dashboard reader
`loadUserStats`).

The browser `localStorage` is modelled as a map from usernames to the
content stored under the per-user keys `mydiary_notes_<u>` and
`mydiary_settings_<u>`; a stored notes value is either a serialized list
of note records, the empty string, or unparsable text (`corrupt`, on
which `JSON.parse` throws).  JSON serialization is value-faithful for
strings, numbers, arrays and plain objects, but a `Blob` has no
enumerable own properties, so `JSON.stringify` turns every `Blob` field
into the empty object — the bytes are lost on any write into
`localStorage` (modelled by `BlobJson`/`serializeBlob`).
`localStorage.setItem` can throw (quota exceeded / storage disabled);
the flag `writeOk` says whether writes succeed.  The local filesystem
reached through the File System Access API is a list of (subfolder,
filename, content) entries; `getFileHandle(filename, {create: true})`
eagerly creates the (empty) file, while written content
materializes only when `close()` succeeds — so an export that throws
after `getFileHandle` leaves a newly created empty file behind, and one
that throws before it leaves the filesystem untouched.
-/

namespace Diary

/-- The `type` field of a note: `"text" | "audio" | "video"`. -/
inductive NoteType where
  | text
  | audio
  | video
deriving DecidableEq, Repr

/-- An opaque binary payload (the bytes of a `Blob`). -/
abbrev Blob := List Nat

/-- A calendar day, the `YYYY-MM-DD` part of an ISO-8601 timestamp. -/
structure Day where
  y : Nat
  m : Nat
  d : Nat
deriving DecidableEq, Repr

/-- Two-digit zero-padded decimal rendering (month/day of `toISOString`). -/
def pad2 (n : Nat) : String :=
  if n < 10 then "0" ++ toString n else toString n

/-- Four-digit zero-padded decimal rendering (year of `toISOString`). -/
def pad4 (n : Nat) : String :=
  if n < 10 then "000" ++ toString n
  else if n < 100 then "00" ++ toString n
  else if n < 1000 then "0" ++ toString n
  else toString n

/-- `date.toISOString().split("T")[0]`: the day part `YYYY-MM-DD`. -/
def dayString (d : Day) : String :=
  pad4 d.y ++ "-" ++ pad2 d.m ++ "-" ++ pad2 d.d

/-- An ISO-8601 timestamp, split into its day and the text after the `T`
(time of day, milliseconds and zone).  `new Date(s).toISOString()` is
`dayString day ++ "T" ++ timePart`. -/
structure Timestamp where
  day : Day
  timePart : String
deriving DecidableEq, Repr

/-- The ASCII characters of the JavaScript regex class `\s` (the model keeps
titles in ASCII; the Unicode spaces of `\s` are out of scope). -/
def jsSpace (c : Char) : Bool :=
  c = ' ' || c = '\t' || c = '\n' || c = '\r' || c = '\x0b' || c = '\x0c'

/-- ASCII alphanumeric: the class `[a-zA-Z0-9]`. -/
def isAlnumAscii (c : Char) : Bool :=
  (97 ≤ c.toNat && c.toNat ≤ 122) ||
  (65 ≤ c.toNat && c.toNat ≤ 90) ||
  (48 ≤ c.toNat && c.toNat ≤ 57)

/-- `.replace(/p+/g, "_")`: each maximal run of characters satisfying `p`
becomes a single underscore.  The boolean argument records whether the
previous character was part of a run. -/
def collapseRuns (p : Char → Bool) : Bool → List Char → List Char
  | _, [] => []
  | prev, c :: rest =>
    if p c then
      if prev then collapseRuns p true rest
      else '_' :: collapseRuns p true rest
    else c :: collapseRuns p false rest

/-- The title sanitizer of `generateFilename`
(src/lib/file-storage.ts:89): first `.replace(/[^a-zA-Z0-9\s]/g, "")`
(keep only alphanumerics and whitespace), then `.replace(/\s+/g, "_")`
(each whitespace run becomes one underscore). -/
def sanitizeTitle (title : String) : String :=
  String.mk (collapseRuns jsSpace false
    (title.data.filter fun c => isAlnumAscii c || jsSpace c))

/-- The sanitizer as the spec's sentence reads literally: removes all
characters outside `[A-Za-z0-9 ]` (so everything but alphanumerics and
the space character), then collapses runs of the remaining whitespace
(spaces) to single underscores.  Kept for comparison with
`sanitizeTitle`, which is translated from the source. -/
def claimSanitizeTitle (title : String) : String :=
  String.mk (collapseRuns (fun c => c = ' ') false
    (title.data.filter fun c => isAlnumAscii c || c = ' '))

/-- The extension table of `generateFilename`. -/
def extOf : NoteType → String
  | .text => ".txt"
  | .audio => ".mp3"
  | .video => ".mp4"

/-- `generateFilename(title, type, date)` (src/lib/file-storage.ts:87-98):
`` `${timestamp}_${sanitizedTitle}${extensions[type]}` `` where
`timestamp` is the day part of the date's ISO string. -/
def generateFilename (title : String) (ty : NoteType) (d : Day) : String :=
  dayString d ++ "_" ++ sanitizeTitle title ++ extOf ty

/-- `note.type.charAt(0).toUpperCase() + note.type.slice(1)`:
the subfolder for each note type. -/
def subdirName : NoteType → String
  | .text => "Text"
  | .audio => "Audio"
  | .video => "Video"

/-- The `NoteFile` interface of src/lib/file-storage.ts:6-17.  Optional
fields are `Option`; `date` is the ISO timestamp. -/
structure NoteFile where
  id : String
  title : String
  type : NoteType
  filename : String
  content : Option String
  blob : Option Blob
  date : Timestamp
  tags : List String
  mood : Option String
  duration : Option Nat
deriving DecidableEq, Repr

/-- The JSON image of a `Blob`: `JSON.stringify` sees no enumerable own
properties on a `Blob`, so every blob serializes as the empty object,
whatever its bytes were. -/
inductive BlobJson where
  | emptyObj
deriving DecidableEq, Repr

/-- What `JSON.stringify` makes of a `Blob` field: the bytes are
discarded, only an empty object reaches the store. -/
def serializeBlob (_ : Blob) : BlobJson := .emptyObj

/-- A record as it sits in the serialized `mydiary_notes_<u>` array.  The
three writers (the fallback `saveToLocalStorage`, the metadata writer
`saveMetadataToLocalStorage`, and the dialog's `handleSave`) store
objects of different shapes; `JSON.stringify` drops `undefined` fields,
so each shape is this structure with `none` for its absent fields.
Blob-valued fields hold only their serialization image (`BlobJson`). -/
structure StoredNote where
  id : String
  title : String
  type : NoteType
  filename : Option String
  content : Option String
  audioData : Option BlobJson
  videoData : Option BlobJson
  thumbnail : Option BlobJson
  date : Timestamp
  tags : List String
  mood : Option String
  duration : Option Nat
  savedToFile : Option Bool
  createdAt : Option Nat
deriving DecidableEq, Repr

/-- What the string under the key `mydiary_notes_<u>` can be: the empty
string, a serialized array of records, or text `JSON.parse` rejects
(this also stands for parsable JSON that is not an array, on which the
subsequent `.push` / `.filter` throws all the same). -/
inductive Stored where
  | emptyStr
  | notesJson (l : List StoredNote)
  | corrupt
deriving DecidableEq, Repr

/-- `JSON.parse(localStorage.getItem(key) || "[]")`: an absent key
(`getItem` = null) and the empty string are both falsy, so they parse as
`[]`; corrupt content makes `JSON.parse` throw (`none`). -/
def parseNotesOrDefault : Option Stored → Option (List StoredNote)
  | none => some []
  | some .emptyStr => some []
  | some (.notesJson l) => some l
  | some .corrupt => none

/-- `UserSettings.notifications` (src/components/settings-view.tsx). -/
structure NotificationSettings where
  enabled : Bool
  dailyReminder : Bool
  reminderTime : String
  weeklyReminder : Bool
deriving DecidableEq, Repr

/-- `UserSettings.privacy`. -/
structure PrivacySettings where
  passwordProtection : Bool
  autoLock : Bool
  autoLockTime : Nat
deriving DecidableEq, Repr

/-- `UserSettings.backup`. -/
structure BackupSettings where
  autoBackup : Bool
  backupFrequency : String
deriving DecidableEq, Repr

/-- `UserSettings.customization`. -/
structure CustomizationSettings where
  accentColor : String
  backgroundPattern : String
deriving DecidableEq, Repr

/-- The `UserSettings` interface of src/components/settings-view.tsx
(string-literal unions modelled as strings). -/
structure UserSettings where
  diaryPath : String
  theme : String
  fontFamily : String
  fontSize : String
  notifications : NotificationSettings
  privacy : PrivacySettings
  backup : BackupSettings
  customization : CustomizationSettings
deriving DecidableEq, Repr

/-- `defaultSettings` of src/components/settings-view.tsx. -/
def defaultSettings : UserSettings :=
  { diaryPath := ""
    theme := "system"
    fontFamily := "Inter"
    fontSize := "medium"
    notifications :=
      { enabled := false, dailyReminder := false
        reminderTime := "21:00", weeklyReminder := false }
    privacy :=
      { passwordProtection := false, autoLock := false, autoLockTime := 15 }
    backup := { autoBackup := false, backupFrequency := "weekly" }
    customization := { accentColor := "#3b82f6", backgroundPattern := "none" } }

/-- What a written file holds: UTF-8 text for a text note, raw bytes for an
audio/video note with a payload, nothing when an audio/video note has no
`blob` (the file is still created and closed). -/
inductive FileContent where
  | textContent (s : String)
  | blobContent (b : Blob)
  | emptyContent
deriving DecidableEq, Repr

/-- The persistent state the core touches: per-user `localStorage` slots
for notes and settings, the per-user directory-initialized flag, the
filesystem entries written through the directory handle, and whether
`localStorage.setItem` currently succeeds (quota not exceeded, storage
not disabled). -/
structure Store where
  notes : String → Option Stored
  settings : String → Option UserSettings
  dirInit : String → Bool
  files : List (String × String × FileContent)
  writeOk : Bool

/-- `localStorage.setItem("mydiary_notes_" + u, v)` on the model state. -/
def setNotes (st : Store) (u : String) (v : Option Stored) : Store :=
  { st with notes := fun x => if x = u then v else st.notes x }

/-- `localStorage.setItem("mydiary_settings_" + u, v)` / `removeItem`. -/
def setSettingsSlot (st : Store) (u : String) (v : Option UserSettings) : Store :=
  { st with settings := fun x => if x = u then v else st.settings x }

/-- A completed `getFileHandle(filename, {create:true})` + write + close:
the file under (subdir, filename) now holds `c`, silently overwriting a
previous file of the same name. -/
def writeFile (st : Store) (subdir fname : String) (c : FileContent) : Store :=
  { st with files :=
      (st.files.filter fun e => !(e.1 = subdir && e.2.1 = fname)) ++
        [(subdir, fname, c)] }

/-- The read of `loadUserStats` (src/unnamed/part_002), the view layer's
`readAll`: `JSON.parse(localStorage.getItem(key) || "[]")`, not guarded
by try/catch, so corrupt content is an unhandled throw (`none`). -/
def readAll (st : Store) (u : String) : Option (List StoredNote) :=
  parseNotesOrDefault (st.notes u)

/-- The object `saveToLocalStorage` pushes
(src/lib/file-storage.ts:162-174): the full record inline, with the
payload under `audioData`/`videoData` by type and `savedToFile: false`.
The subsequent `JSON.stringify` (line 177) serializes a `Blob` payload
as the empty object, so only `serializeBlob` of the blob reaches the
store — the bytes do not survive the fallback write. -/
def fallbackRecord (note : NoteFile) : StoredNote :=
  { id := note.id
    title := note.title
    type := note.type
    filename := none
    content := note.content
    audioData := if note.type = .audio then Option.map serializeBlob note.blob else none
    videoData := if note.type = .video then Option.map serializeBlob note.blob else none
    thumbnail := none
    date := note.date
    tags := note.tags
    mood := note.mood
    duration := note.duration
    savedToFile := some false
    createdAt := none }

/-- `saveToLocalStorage(note)` (src/lib/file-storage.ts:158-185): inside
try/catch, parse the current list (corrupt content throws, caught →
`false`, state unchanged), push the full record, write the list back
(`setItem` throws when storage fails, caught → `false`). -/
def saveToLocalStorage (st : Store) (u : String) (note : NoteFile) : Bool × Store :=
  match parseNotesOrDefault (st.notes u) with
  | none => (false, st)
  | some l =>
    if st.writeOk then
      (true, setNotes st u (some (.notesJson (l ++ [fallbackRecord note]))))
    else (false, st)

/-- The metadata object of `saveMetadataToLocalStorage`
(src/lib/file-storage.ts:140-150): the reduced projection plus
`savedToFile: true`, with no inline content or payload. -/
def metadataRecord (note : NoteFile) (filename : String) : StoredNote :=
  { id := note.id
    title := note.title
    type := note.type
    filename := some filename
    content := none
    audioData := none
    videoData := none
    thumbnail := none
    date := note.date
    tags := note.tags
    mood := note.mood
    duration := note.duration
    savedToFile := some true
    createdAt := none }

/-- `saveMetadataToLocalStorage(note, filename)`
(src/lib/file-storage.ts:139-155): parse, push the metadata record,
write back.  It is NOT wrapped in its own try/catch, so a parse throw or
a failed `setItem` propagates to the caller (`none`). -/
def saveMetadataToLocalStorage (st : Store) (u : String) (note : NoteFile)
    (filename : String) : Option Store :=
  match parseNotesOrDefault (st.notes u) with
  | none => none
  | some l =>
    if st.writeOk then
      some (setNotes st u (some (.notesJson (l ++ [metadataRecord note filename]))))
    else none

/-- The environment of one `saveNoteToFile` call: the directory handle is
absent (`this.directoryHandle == null`); or `getDirectoryHandle` /
`getFileHandle` throws (permission denied, stale handle) before the file
exists; or `createWritable` / `write` / `close` throws after
`getFileHandle(filename, {create: true})` already created the file —
written content materializes only at `close()`, so that file is left
empty; or every filesystem step succeeds. -/
inductive FsAttempt where
  | noHandle
  | earlyFailure
  | lateFailure
  | success
deriving DecidableEq, Repr

/-- `getFileHandle(filename, {create: true})` (src/lib/file-storage.ts:112)
when no later step completes: the file is created empty if it was
absent; an existing file keeps its content. -/
def touchFile (st : Store) (subdir fname : String) : Store :=
  if st.files.any (fun e => e.1 = subdir && e.2.1 = fname) then st
  else { st with files := st.files ++ [(subdir, fname, .emptyContent)] }

/-- What the successful write puts in the file: `note.content || ""` for a
text note, the raw blob bytes otherwise (no write call at all when an
audio/video note has no blob, leaving the created file empty). -/
def fileContentOf (note : NoteFile) : FileContent :=
  match note.type with
  | .text => .textContent (note.content.getD "")
  | _ =>
    match note.blob with
    | some b => .blobContent b
    | none => .emptyContent

/-- `saveNoteToFile(note)` (src/lib/file-storage.ts:101-136).  No handle →
fallback.  A throw before `getFileHandle` → caught → fallback, files
untouched.  A throw after `getFileHandle(filename, {create: true})` →
caught → fallback, but the eagerly created empty file stays on disk.
Full filesystem success → `saveMetadataToLocalStorage` (whose own throw
is caught by the same catch and also falls back, with the file already
on disk). -/
def saveNoteToFile (fs : FsAttempt) (st : Store) (u : String)
    (note : NoteFile) : Bool × Store :=
  match fs with
  | .noHandle => saveToLocalStorage st u note
  | .earlyFailure => saveToLocalStorage st u note
  | .lateFailure =>
    let filename := generateFilename note.title note.type note.date.day
    let st1 := touchFile st (subdirName note.type) filename
    saveToLocalStorage st1 u note
  | .success =>
    let filename := generateFilename note.title note.type note.date.day
    let st1 := writeFile st (subdirName note.type) filename (fileContentOf note)
    match saveMetadataToLocalStorage st1 u note filename with
    | some st2 => (true, st2)
    | none => saveToLocalStorage st1 u note

/-- The confirmed branch of `deleteAllData`
(src/components/settings-view.tsx:238-249): `removeItem` on the notes
key and the settings key of the user. -/
def wipe (st : Store) (u : String) : Store :=
  { st with
    notes := fun x => if x = u then none else st.notes x
    settings := fun x => if x = u then none else st.settings x }

/-- The export document of `exportData`
(src/components/settings-view.tsx:196-213). -/
structure ExportDoc where
  username : String
  settings : UserSettings
  notes : List StoredNote
  exportDate : Timestamp
  version : String
deriving DecidableEq, Repr

/-- `exportData` (src/components/settings-view.tsx:196-213): reads the
notes list with an unguarded `JSON.parse` (corrupt content is an
unhandled throw, no document is produced), then assembles the JSON
backup document from the in-memory settings and the current time. -/
def exportData (st : Store) (u : String) (settings : UserSettings)
    (now : Timestamp) : Option ExportDoc :=
  match parseNotesOrDefault (st.notes u) with
  | none => none
  | some l =>
    some { username := u, settings := settings, notes := l
           exportDate := now, version := "1.0" }

/-- The `reader.onload` body of `importData`
(src/components/settings-view.tsx:220-234) applied to an already parsed
backup document.  A document built by `exportData` always carries both
`notes` (an array, truthy even when empty) and `settings` (an object,
truthy), so both slots are overwritten — an all-or-nothing replace; a
throwing `setItem` is caught by the surrounding try (alert, no
replace). -/
def importData (doc : ExportDoc) (st : Store) (u : String) : Bool × Store :=
  if st.writeOk then
    (true, setSettingsSlot (setNotes st u (some (.notesJson doc.notes))) u
      (some doc.settings))
  else (false, st)

/-- JavaScript `String.prototype.trim` on ASCII text: strip leading and
trailing whitespace. -/
def jsTrim (s : String) : String :=
  String.mk (((s.data.dropWhile jsSpace).reverse.dropWhile jsSpace).reverse)

/-- `tags.split(",").map(t => t.trim()).filter(Boolean)` of `handleSave`. -/
def splitTags (tags : String) : List String :=
  ((tags.splitOn ",").map jsTrim).filter fun t => t ≠ ""

/-- The second argument of `handleSave`: a string for a text note, a blob
for an audio/video note. -/
inductive ContentArg where
  | str (s : String)
  | bin (b : Blob)
deriving DecidableEq, Repr

/-- `noteTitle || title`: an absent argument and the empty string are both
falsy, so the dialog's title state is used. -/
def finalTitleOf (noteTitle : Option String) (title : String) : String :=
  match noteTitle with
  | none => title
  | some t => if t = "" then title else t

/-- The dialog state `handleSave` closes over
(src/components/create-note-dialog.tsx:26-31). -/
structure DialogState where
  title : String
  content : String
  tags : String
  mood : String
  noteType : NoteType
deriving DecidableEq, Repr

/-- `(noteContent as string) || content` for a text note: an absent
argument and the empty string fall back to the dialog's content state
(the dialog's callers never pass a blob for a text note; that case also
falls back here). -/
def textContentOf (noteContent : Option ContentArg) (content : String) : String :=
  match noteContent with
  | some (.str s) => if s = "" then content else s
  | _ => content

/-- The note object `handleSave` builds
(src/components/create-note-dialog.tsx:38-54). -/
def dialogRecord (ds : DialogState) (noteTitle : Option String)
    (noteContent : Option ContentArg) (durationArg : Option Nat)
    (thumbnail : Option Blob) (now : Timestamp) (nowMs : Nat) : StoredNote :=
  { id := toString nowMs
    title := jsTrim (finalTitleOf noteTitle ds.title)
    type := ds.noteType
    filename := none
    content := some (if ds.noteType = .text then textContentOf noteContent ds.content else "")
    audioData :=
      if ds.noteType = .audio then
        match noteContent with
        | some (.bin b) => some (serializeBlob b)
        | _ => none
      else none
    videoData :=
      if ds.noteType = .video then
        match noteContent with
        | some (.bin b) => some (serializeBlob b)
        | _ => none
      else none
    thumbnail := Option.map serializeBlob thumbnail
    date := now
    tags := splitTags ds.tags
    mood := some ds.mood
    duration := some (durationArg.getD 0)
    savedToFile := none
    createdAt := some nowMs }

/-- `handleSave` (src/components/create-note-dialog.tsx:33-64): if the
effective title trims to the empty string it returns before touching
storage; otherwise it parses the current list (unguarded: corrupt
content is an unhandled throw, `none`), pushes the new note and writes
the list back (`setItem` failure is likewise unhandled). -/
def handleSave (st : Store) (u : String) (ds : DialogState)
    (noteTitle : Option String) (noteContent : Option ContentArg)
    (durationArg : Option Nat) (thumbnail : Option Blob)
    (now : Timestamp) (nowMs : Nat) : Option Store :=
  let finalTitle := finalTitleOf noteTitle ds.title
  if jsTrim finalTitle = "" then some st
  else
    match parseNotesOrDefault (st.notes u) with
    | none => none
    | some l =>
      if st.writeOk then
        some (setNotes st u (some (.notesJson
          (l ++ [dialogRecord ds noteTitle noteContent durationArg thumbnail now nowMs]))))
      else none

/-! Concrete values used by the witness and counterexample theorems. -/

/-- A fresh state: no stored notes, no settings, storage healthy. -/
def st0 : Store :=
  { notes := fun _ => none, settings := fun _ => none
    dirInit := fun _ => false, files := [], writeOk := true }

/-- A state whose key-value storage is full or disabled: `setItem` throws. -/
def deadStore : Store := { st0 with writeOk := false }

/-- A state whose stored notes value does not parse as a JSON array. -/
def corruptStore : Store := { st0 with notes := fun _ => some .corrupt }

/-- 2025-01-15. -/
def day0 : Day := { y := 2025, m := 1, d := 15 }

/-- A capture timestamp on 2025-01-15. -/
def ts0 : Timestamp := { day := day0, timePart := "10:00:00.000Z" }

/-- A sample audio note with a binary payload. -/
def audioNote : NoteFile :=
  { id := "1", title := "Morning", type := .audio, filename := ""
    content := none, blob := some [1, 2, 3], date := ts0
    tags := ["a"], mood := some "happy", duration := some 5 }

/-- A sample text note. -/
def textNote : NoteFile :=
  { id := "2", title := "Hello, World!", type := .text, filename := ""
    content := some "hi", blob := none, date := ts0
    tags := [], mood := none, duration := none }

/-! Helper lemmas shared by the claim theorems. -/

theorem setNotes_notes_self (st : Store) (u : String) (v : Option Stored) :
    (setNotes st u v).notes u = v := by
  simp [setNotes]

theorem setNotes_files (st : Store) (u : String) (v : Option Stored) :
    (setNotes st u v).files = st.files := rfl

theorem setNotes_writeOk (st : Store) (u : String) (v : Option Stored) :
    (setNotes st u v).writeOk = st.writeOk := rfl

theorem writeFile_notes (st : Store) (a b : String) (c : FileContent) :
    (writeFile st a b c).notes = st.notes := rfl

theorem writeFile_writeOk (st : Store) (a b : String) (c : FileContent) :
    (writeFile st a b c).writeOk = st.writeOk := rfl

theorem touchFile_notes (st : Store) (a b : String) :
    (touchFile st a b).notes = st.notes := by
  unfold touchFile
  split <;> rfl

theorem touchFile_writeOk (st : Store) (a b : String) :
    (touchFile st a b).writeOk = st.writeOk := by
  unfold touchFile
  split <;> rfl

theorem saveToLocalStorage_ok (st : Store) (u : String) (note : NoteFile)
    (l : List StoredNote) (hl : parseNotesOrDefault (st.notes u) = some l)
    (hw : st.writeOk = true) :
    saveToLocalStorage st u note =
      (true, setNotes st u (some (.notesJson (l ++ [fallbackRecord note])))) := by
  simp [saveToLocalStorage, hl, hw]

theorem saveToLocalStorage_corrupt (st : Store) (u : String) (note : NoteFile)
    (hl : parseNotesOrDefault (st.notes u) = none) :
    saveToLocalStorage st u note = (false, st) := by
  simp [saveToLocalStorage, hl]

theorem readAll_setNotes (st : Store) (u : String) (l : List StoredNote) :
    readAll (setNotes st u (some (.notesJson l))) u = some l := by
  simp [readAll, setNotes, parseNotesOrDefault]

theorem mem_collapseRuns (p : Char → Bool) (l : List Char) :
    ∀ (b : Bool) (c : Char), c ∈ collapseRuns p b l →
      c = '_' ∨ (c ∈ l ∧ p c = false) := by
  induction l with
  | nil => intro b c hc; simp [collapseRuns] at hc
  | cons a rest ih =>
    intro b c hc
    by_cases ha : p a = true
    · cases b with
      | true =>
        have heq : collapseRuns p true (a :: rest) = collapseRuns p true rest := by
          simp [collapseRuns, ha]
        rw [heq] at hc
        rcases ih true c hc with h | ⟨h1, h2⟩
        · exact Or.inl h
        · exact Or.inr ⟨List.mem_cons_of_mem a h1, h2⟩
      | false =>
        have heq : collapseRuns p false (a :: rest) =
            '_' :: collapseRuns p true rest := by
          simp [collapseRuns, ha]
        rw [heq] at hc
        rcases List.mem_cons.mp hc with h | h
        · exact Or.inl h
        · rcases ih true c h with h1 | ⟨h2, h3⟩
          · exact Or.inl h1
          · exact Or.inr ⟨List.mem_cons_of_mem a h2, h3⟩
    · have ha2 : p a = false := by simpa using ha
      have heq : collapseRuns p b (a :: rest) = a :: collapseRuns p false rest := by
        simp [collapseRuns, ha]
      rw [heq] at hc
      rcases List.mem_cons.mp hc with h | h
      · subst h
        exact Or.inr ⟨List.mem_cons_self c rest, ha2⟩
      · rcases ih false c h with h1 | ⟨h2, h3⟩
        · exact Or.inl h1
        · exact Or.inr ⟨List.mem_cons_of_mem a h2, h3⟩

/-! The claim theorems. -/

/-- Claim C1, counterexample to the claim as stated, in both directions
the claim can fail.  First: with the directory handle absent and the
key-value storage full or disabled, `saveNoteToFile` returns `false` and
the state is unchanged — the note is NOT appended to the fallback store,
so neither path "succeeds fully".  Second: when the export throws after
`getFileHandle(filename, {create: true})` (a `createWritable` / `write`
/ `close` failure), the note does reach the fallback store but a newly
created empty file is left on disk — partial state. -/
theorem export_failure_partial_state_cex :
    (saveNoteToFile .noHandle deadStore "alice" textNote).1 = false ∧
    (saveNoteToFile .noHandle deadStore "alice" textNote).2 = deadStore ∧
    readAll (saveNoteToFile .noHandle deadStore "alice" textNote).2 "alice" =
      some [] ∧
    st0.files = [] ∧
    (saveNoteToFile .lateFailure st0 "alice" textNote).1 = true ∧
    (saveNoteToFile .lateFailure st0 "alice" textNote).2.files =
      [("Text", "2025-01-15_Hello_World.txt", FileContent.emptyContent)] :=
  ⟨rfl, rfl, rfl, rfl, rfl, by decide⟩

/-- Claim C1 (amended): whenever the directory-export path of
`saveNoteToFile` fails (no directory handle, or any filesystem error)
and the fallback store write itself succeeds (the stored list parses and
storage accepts writes), the same note is appended to the fallback store
flagged `savedToFile = false` and the call reports success, with no
retry; a failure before `getFileHandle` leaves the filesystem untouched,
while a failure after it leaves at most the eagerly created empty file
(so "no partial state" does not hold there). -/
theorem exportFailure_appends_to_fallback (fs : FsAttempt) (st : Store)
    (u : String) (note : NoteFile) (l : List StoredNote)
    (hfs : fs ≠ FsAttempt.success)
    (hl : parseNotesOrDefault (st.notes u) = some l)
    (hw : st.writeOk = true) :
    (saveNoteToFile fs st u note).1 = true ∧
    (saveNoteToFile fs st u note).2.notes u =
      some (.notesJson (l ++ [fallbackRecord note])) ∧
    (fallbackRecord note).savedToFile = some false ∧
    ((fs = FsAttempt.noHandle ∨ fs = FsAttempt.earlyFailure) →
      (saveNoteToFile fs st u note).2.files = st.files) ∧
    (fs = FsAttempt.lateFailure →
      (saveNoteToFile fs st u note).2.files = st.files ∨
      (saveNoteToFile fs st u note).2.files =
        st.files ++ [(subdirName note.type,
          generateFilename note.title note.type note.date.day,
          FileContent.emptyContent)]) := by
  cases fs with
  | success => exact absurd rfl hfs
  | noHandle =>
    have h1 : saveNoteToFile .noHandle st u note =
        (true, setNotes st u (some (.notesJson (l ++ [fallbackRecord note])))) :=
      saveToLocalStorage_ok st u note l hl hw
    rw [h1]
    refine ⟨rfl, setNotes_notes_self _ _ _, rfl, fun _ => setNotes_files _ _ _, ?_⟩
    intro h
    simp at h
  | earlyFailure =>
    have h1 : saveNoteToFile .earlyFailure st u note =
        (true, setNotes st u (some (.notesJson (l ++ [fallbackRecord note])))) :=
      saveToLocalStorage_ok st u note l hl hw
    rw [h1]
    refine ⟨rfl, setNotes_notes_self _ _ _, rfl, fun _ => setNotes_files _ _ _, ?_⟩
    intro h
    simp at h
  | lateFailure =>
    have hl2 : parseNotesOrDefault ((touchFile st (subdirName note.type)
        (generateFilename note.title note.type note.date.day)).notes u) = some l := by
      rw [touchFile_notes]
      exact hl
    have hw2 : (touchFile st (subdirName note.type)
        (generateFilename note.title note.type note.date.day)).writeOk = true := by
      rw [touchFile_writeOk]
      exact hw
    have h1 : saveNoteToFile .lateFailure st u note =
        (true, setNotes (touchFile st (subdirName note.type)
          (generateFilename note.title note.type note.date.day)) u
          (some (.notesJson (l ++ [fallbackRecord note])))) :=
      saveToLocalStorage_ok _ u note l hl2 hw2
    rw [h1]
    refine ⟨rfl, setNotes_notes_self _ _ _, rfl, ?_, ?_⟩
    · intro h
      rcases h with h | h <;> simp at h
    · intro _
      rw [setNotes_files]
      unfold touchFile
      split
      · left
        rfl
      · right
        rfl

/-- Claim C1, witness: the amended theorem at a concrete late-failing
export on a fresh healthy state. -/
theorem exportFailure_appends_to_fallback_witness :
    (saveNoteToFile .lateFailure st0 "alice" textNote).1 = true ∧
    (saveNoteToFile .lateFailure st0 "alice" textNote).2.notes "alice" =
      some (.notesJson ([] ++ [fallbackRecord textNote])) ∧
    (fallbackRecord textNote).savedToFile = some false ∧
    ((FsAttempt.lateFailure = FsAttempt.noHandle ∨
      FsAttempt.lateFailure = FsAttempt.earlyFailure) →
      (saveNoteToFile .lateFailure st0 "alice" textNote).2.files = st0.files) ∧
    (FsAttempt.lateFailure = FsAttempt.lateFailure →
      (saveNoteToFile .lateFailure st0 "alice" textNote).2.files = st0.files ∨
      (saveNoteToFile .lateFailure st0 "alice" textNote).2.files =
        st0.files ++ [(subdirName textNote.type,
          generateFilename textNote.title textNote.type textNote.date.day,
          FileContent.emptyContent)]) :=
  exportFailure_appends_to_fallback .lateFailure st0 "alice" textNote []
    (by decide) rfl rfl

/-- Claim C2, counterexample to the claim as stated: on the title
`"a\tb"` the code's sanitizer keeps the tab as part of a whitespace run
and produces `"a_b"`, while the claimed rule — remove every character
outside `[A-Za-z0-9 ]`, then collapse runs of the remaining whitespace —
would delete the tab and produce `"ab"`. -/
theorem sanitizeTitle_tab_cex :
    sanitizeTitle "a\tb" = "a_b" ∧
    claimSanitizeTitle "a\tb" = "ab" ∧
    sanitizeTitle "a\tb" ≠ claimSanitizeTitle "a\tb" ∧
    generateFilename "a\tb" NoteType.text { y := 2025, m := 1, d := 15 } =
      "2025-01-15_a_b.txt" := by
  decide

/-- Claim C2 (amended): filename derivation is a deterministic function of
(day, title, type); sanitization removes all characters outside
alphanumerics-and-whitespace and collapses every whitespace run (space,
tab, CR, LF, VT, FF) to a single underscore, so the sanitized title
contains only `[A-Za-z0-9_]`; the result has the form
`YYYY-MM-DD_SanitizedTitle` + extension; a text note titled
"Hello, World!" dated 2025-01-15 yields `2025-01-15_Hello_World.txt`. -/
theorem generateFilename_sanitize_spec (t : String) (ty : NoteType) (d : Day) :
    generateFilename t ty d = generateFilename t ty d ∧
    generateFilename t ty d = dayString d ++ "_" ++ sanitizeTitle t ++ extOf ty ∧
    (∀ c ∈ (sanitizeTitle t).data, isAlnumAscii c = true ∨ c = '_') ∧
    generateFilename "Hello, World!" NoteType.text { y := 2025, m := 1, d := 15 } =
      "2025-01-15_Hello_World.txt" := by
  refine ⟨rfl, rfl, ?_, by decide⟩
  intro c hc
  have hc2 : c ∈ collapseRuns jsSpace false
      (t.data.filter fun x => isAlnumAscii x || jsSpace x) := hc
  rcases mem_collapseRuns jsSpace _ false c hc2 with h | ⟨hmem, hp⟩
  · exact Or.inr h
  · left
    have h2 := (List.mem_filter.mp hmem).2
    simpa [hp] using h2

/-- Claim C3, counterexample to the claim as stated, in both directions
the claim can fail.  First: on a prior state whose stored notes value
does not parse, the append fails (returns `false`, state unchanged) and
`readAll` is an unhandled parse throw — the appended record does not
appear.  Second: even on a fresh healthy state, the binary payload is
NOT preserved: `JSON.stringify` serializes the `Blob` as the empty
object, so the same stored record results from two different payloads
and the bytes are unrecoverable from the store. -/
theorem append_readAll_roundtrip_cex :
    (saveToLocalStorage corruptStore "alice" textNote).1 = false ∧
    (saveToLocalStorage corruptStore "alice" textNote).2 = corruptStore ∧
    readAll (saveToLocalStorage corruptStore "alice" textNote).2 "alice" =
      none ∧
    readAll (saveToLocalStorage st0 "alice" audioNote).2 "alice" =
      some [fallbackRecord audioNote] ∧
    (fallbackRecord audioNote).audioData = some BlobJson.emptyObj ∧
    audioNote.blob ≠ some [9, 9] ∧
    fallbackRecord audioNote = fallbackRecord { audioNote with blob := some [9, 9] } :=
  ⟨rfl, rfl, rfl, rfl, rfl, by decide, rfl⟩

/-- Claim C3 (amended): for every valid note record and every prior store
state whose stored content parses and whose storage accepts writes,
append (`saveToLocalStorage`) followed by `readAll` yields the old
collection plus the appended record with id, title, type, text content,
date, tags, mood and duration preserved; the binary payload, however, is
stored only as its JSON serialization — an empty object identical for
all payloads — so the bytes are not preserved through the store. -/
theorem append_readAll_roundtrip (st : Store) (u : String) (note : NoteFile)
    (l : List StoredNote) (hl : parseNotesOrDefault (st.notes u) = some l)
    (hw : st.writeOk = true) :
    readAll (saveToLocalStorage st u note).2 u =
      some (l ++ [fallbackRecord note]) ∧
    fallbackRecord note ∈ l ++ [fallbackRecord note] ∧
    (fallbackRecord note).id = note.id ∧
    (fallbackRecord note).title = note.title ∧
    (fallbackRecord note).type = note.type ∧
    (fallbackRecord note).content = note.content ∧
    (fallbackRecord note).date = note.date ∧
    (fallbackRecord note).tags = note.tags ∧
    (fallbackRecord note).mood = note.mood ∧
    (fallbackRecord note).duration = note.duration ∧
    (note.type = .audio →
      (fallbackRecord note).audioData = Option.map serializeBlob note.blob) ∧
    (note.type = .video →
      (fallbackRecord note).videoData = Option.map serializeBlob note.blob) ∧
    (∀ b1 b2 : Blob, serializeBlob b1 = serializeBlob b2) := by
  have h1 := saveToLocalStorage_ok st u note l hl hw
  refine ⟨?_, by simp, rfl, rfl, rfl, rfl, rfl, rfl, rfl, rfl, ?_, ?_, fun _ _ => rfl⟩
  · rw [h1]
    exact readAll_setNotes _ _ _
  · intro h
    simp [fallbackRecord, h]
  · intro h
    simp [fallbackRecord, h]

/-- Claim C3, witness: the amended round trip at a concrete audio note on a
fresh healthy state. -/
theorem append_readAll_roundtrip_witness :
    readAll (saveToLocalStorage st0 "alice" audioNote).2 "alice" =
      some ([] ++ [fallbackRecord audioNote]) ∧
    fallbackRecord audioNote ∈ [] ++ [fallbackRecord audioNote] ∧
    (fallbackRecord audioNote).id = audioNote.id ∧
    (fallbackRecord audioNote).title = audioNote.title ∧
    (fallbackRecord audioNote).type = audioNote.type ∧
    (fallbackRecord audioNote).content = audioNote.content ∧
    (fallbackRecord audioNote).date = audioNote.date ∧
    (fallbackRecord audioNote).tags = audioNote.tags ∧
    (fallbackRecord audioNote).mood = audioNote.mood ∧
    (fallbackRecord audioNote).duration = audioNote.duration ∧
    (audioNote.type = .audio →
      (fallbackRecord audioNote).audioData = Option.map serializeBlob audioNote.blob) ∧
    (audioNote.type = .video →
      (fallbackRecord audioNote).videoData = Option.map serializeBlob audioNote.blob) ∧
    (∀ b1 b2 : Blob, serializeBlob b1 = serializeBlob b2) :=
  append_readAll_roundtrip st0 "alice" audioNote [] rfl rfl

/-- Claim C4, the code evaluated at the failing input: an audio note with
payload bytes `[1, 2, 3]` saved while directory access is denied does
appear in `readAll` with `savedToFile = false`, but its "inline payload"
is only the empty JSON object — `JSON.stringify` serializes the `Blob`
without its bytes, so the same stored record would result from any other
payload and the bytes are gone.  The spec's intent (binary payload kept
inline in the fallback store) is clear, and the code's `audioData:
note.blob` under `JSON.stringify` (src/lib/file-storage.ts:167,177) is
the slip. -/
theorem payload_lost_on_fallback :
    (saveNoteToFile .earlyFailure st0 "alice" audioNote).1 = true ∧
    readAll (saveNoteToFile .earlyFailure st0 "alice" audioNote).2 "alice" =
      some [fallbackRecord audioNote] ∧
    (fallbackRecord audioNote).savedToFile = some false ∧
    (fallbackRecord audioNote).audioData = some BlobJson.emptyObj ∧
    audioNote.blob = some [1, 2, 3] ∧
    fallbackRecord audioNote = fallbackRecord { audioNote with blob := some [4, 5] } :=
  ⟨rfl, rfl, rfl, rfl, rfl, rfl⟩

/-- Claim C5: for every username and every prior state, `wipe` (the
confirmed branch of `deleteAllData`) removes both the per-user note
collection and the per-user settings collection, and a subsequent
`readAll` for that user returns the empty collection. -/
theorem wipe_then_readAll_empty (st : Store) (u : String) :
    (wipe st u).notes u = none ∧
    (wipe st u).settings u = none ∧
    readAll (wipe st u) u = some [] := by
  refine ⟨?_, ?_, ?_⟩ <;> simp [wipe, readAll, parseNotesOrDefault]

/-- Claim C6, counterexample to the claim as stated: on a local state whose
stored notes value does not parse, `exportData`'s unguarded `JSON.parse`
throws and no export document is produced, so "for every local state,
exporting produces a single JSON document" fails. -/
theorem exportData_fails_on_corrupt :
    exportData corruptStore "alice" defaultSettings ts0 = none := rfl

/-- Claim C6 (amended): for every local state whose stored notes value
parses, exporting produces a single document carrying the username, the
settings, the full note list, the export timestamp and the version
string "1.0"; importing that same document into any state whose storage
accepts writes replaces the local note collection and settings with the
exported values — an all-or-nothing replace of both slots regardless of
their prior content, not a merge. -/
theorem export_import_roundtrip (st : Store) (u : String) (s : UserSettings)
    (now : Timestamp) (l : List StoredNote)
    (hl : parseNotesOrDefault (st.notes u) = some l) :
    ∃ doc : ExportDoc,
      exportData st u s now = some doc ∧
      doc.username = u ∧ doc.settings = s ∧ doc.notes = l ∧
      doc.exportDate = now ∧ doc.version = "1.0" ∧
      ∀ st2 : Store, st2.writeOk = true →
        (importData doc st2 u).1 = true ∧
        (importData doc st2 u).2.notes u = some (.notesJson doc.notes) ∧
        (importData doc st2 u).2.settings u = some doc.settings := by
  refine ⟨{ username := u, settings := s, notes := l
            exportDate := now, version := "1.0" }, ?_, rfl, rfl, rfl, rfl, rfl, ?_⟩
  · simp [exportData, hl]
  · intro st2 hw2
    refine ⟨?_, ?_, ?_⟩ <;> simp [importData, hw2, setSettingsSlot, setNotes]

/-- Claim C6, witness: the amended round trip at a fresh healthy state with
the default settings. -/
theorem export_import_roundtrip_witness :
    ∃ doc : ExportDoc,
      exportData st0 "alice" defaultSettings ts0 = some doc ∧
      doc.username = "alice" ∧ doc.settings = defaultSettings ∧ doc.notes = [] ∧
      doc.exportDate = ts0 ∧ doc.version = "1.0" ∧
      ∀ st2 : Store, st2.writeOk = true →
        (importData doc st2 "alice").1 = true ∧
        (importData doc st2 "alice").2.notes "alice" = some (.notesJson doc.notes) ∧
        (importData doc st2 "alice").2.settings "alice" = some doc.settings :=
  export_import_roundtrip st0 "alice" defaultSettings ts0 [] rfl

/-- Claim C7, counterexample to the claim as stated: unparsable stored
content is NOT treated as the empty list — `JSON.parse` throws inside
the try block, the append returns `false` and the slot keeps its corrupt
content, with no record written. -/
theorem append_corrupt_slot_cex :
    (saveToLocalStorage corruptStore "bob" audioNote).1 = false ∧
    (saveToLocalStorage corruptStore "bob" audioNote).2.notes "bob" =
      some Stored.corrupt :=
  ⟨rfl, rfl⟩

/-- Claim C7 (amended): when storage accepts writes, append reads the
current per-user list treating an absent key as the empty list, appends
the record and writes the whole list back; unparsable stored content
instead makes the append fail and leave the state unchanged; no
uniqueness is enforced beyond the caller-supplied id — appending two
records with the same id succeeds and both are stored. -/
theorem append_semantics (st : Store) (u : String) (n1 n2 : NoteFile)
    (l : List StoredNote) (hw : st.writeOk = true) :
    (st.notes u = none →
      (saveToLocalStorage st u n1).1 = true ∧
      (saveToLocalStorage st u n1).2.notes u =
        some (.notesJson ([] ++ [fallbackRecord n1]))) ∧
    (parseNotesOrDefault (st.notes u) = some l →
      (saveToLocalStorage st u n1).2.notes u =
        some (.notesJson (l ++ [fallbackRecord n1]))) ∧
    (parseNotesOrDefault (st.notes u) = none →
      saveToLocalStorage st u n1 = (false, st)) ∧
    (parseNotesOrDefault (st.notes u) = some l → n1.id = n2.id →
      readAll (saveToLocalStorage (saveToLocalStorage st u n1).2 u n2).2 u =
        some (l ++ [fallbackRecord n1, fallbackRecord n2])) := by
  refine ⟨?_, ?_, ?_, ?_⟩
  · intro h0
    have hl0 : parseNotesOrDefault (st.notes u) = some [] := by
      rw [h0]
      rfl
    have h1 := saveToLocalStorage_ok st u n1 [] hl0 hw
    rw [h1]
    exact ⟨rfl, setNotes_notes_self _ _ _⟩
  · intro hl
    have h1 := saveToLocalStorage_ok st u n1 l hl hw
    rw [h1]
    exact setNotes_notes_self _ _ _
  · intro hn
    exact saveToLocalStorage_corrupt st u n1 hn
  · intro hl hid
    have h1 := saveToLocalStorage_ok st u n1 l hl hw
    rw [h1]
    have hl2 : parseNotesOrDefault
        ((setNotes st u (some (.notesJson (l ++ [fallbackRecord n1])))).notes u) =
        some (l ++ [fallbackRecord n1]) := by
      rw [setNotes_notes_self]
      rfl
    have hw2 : (setNotes st u (some (.notesJson (l ++ [fallbackRecord n1])))).writeOk =
        true := by
      rw [setNotes_writeOk]
      exact hw
    have h2 := saveToLocalStorage_ok _ u n2 _ hl2 hw2
    rw [h2, readAll_setNotes]
    simp

/-- Claim C7, witness: the amended append semantics at two concrete notes
with the same id on a fresh healthy state. -/
theorem append_semantics_witness :
    (st0.notes "alice" = none →
      (saveToLocalStorage st0 "alice" audioNote).1 = true ∧
      (saveToLocalStorage st0 "alice" audioNote).2.notes "alice" =
        some (.notesJson ([] ++ [fallbackRecord audioNote]))) ∧
    (parseNotesOrDefault (st0.notes "alice") = some [] →
      (saveToLocalStorage st0 "alice" audioNote).2.notes "alice" =
        some (.notesJson ([] ++ [fallbackRecord audioNote]))) ∧
    (parseNotesOrDefault (st0.notes "alice") = none →
      saveToLocalStorage st0 "alice" audioNote = (false, st0)) ∧
    (parseNotesOrDefault (st0.notes "alice") = some [] →
      audioNote.id = audioNote.id →
      readAll (saveToLocalStorage
        (saveToLocalStorage st0 "alice" audioNote).2 "alice" audioNote).2 "alice" =
        some ([] ++ [fallbackRecord audioNote, fallbackRecord audioNote])) :=
  append_semantics st0 "alice" audioNote audioNote [] rfl

/-- Claim C8: `saveNoteToFile` returns a single boolean at the topmost
call, and it is `true` exactly when the key-value store is functional
(current content parses and `setItem` succeeds) — the fallback write is
what can fail; absence of a directory grant is not an error, that case
takes the fallback path and still reports success. -/
theorem saveNoteToFile_success_iff_storeOk (fs : FsAttempt) (st : Store)
    (u : String) (note : NoteFile) :
    (saveNoteToFile fs st u note).1 = true ↔
      (parseNotesOrDefault (st.notes u)).isSome = true ∧ st.writeOk = true := by
  cases fs with
  | noHandle =>
    cases h : parseNotesOrDefault (st.notes u) with
    | none => simp [saveNoteToFile, saveToLocalStorage, h]
    | some l =>
      cases hwk : st.writeOk <;>
        simp [saveNoteToFile, saveToLocalStorage, h, hwk]
  | earlyFailure =>
    cases h : parseNotesOrDefault (st.notes u) with
    | none => simp [saveNoteToFile, saveToLocalStorage, h]
    | some l =>
      cases hwk : st.writeOk <;>
        simp [saveNoteToFile, saveToLocalStorage, h, hwk]
  | lateFailure =>
    cases h : parseNotesOrDefault (st.notes u) with
    | none =>
      simp [saveNoteToFile, saveToLocalStorage, touchFile_notes,
        touchFile_writeOk, h]
    | some l =>
      cases hwk : st.writeOk <;>
        simp [saveNoteToFile, saveToLocalStorage, touchFile_notes,
          touchFile_writeOk, h, hwk]
  | success =>
    cases h : parseNotesOrDefault (st.notes u) with
    | none =>
      simp [saveNoteToFile, saveMetadataToLocalStorage, saveToLocalStorage,
        writeFile, h]
    | some l =>
      cases hwk : st.writeOk <;>
        simp [saveNoteToFile, saveMetadataToLocalStorage, saveToLocalStorage,
          writeFile, h, hwk]

/-- Claim C9: when the file-export path of `saveNoteToFile` fully succeeds
on a functional store, the metadata shadow record appended to the index
consists exactly of the reduced projection (id, title, type, filename,
date, tags, mood, duration) plus `savedToFile = true`, and carries no
inline content and no binary payload. -/
theorem success_appends_metadata_shadow (st : Store) (u : String)
    (note : NoteFile) (l : List StoredNote)
    (hl : parseNotesOrDefault (st.notes u) = some l)
    (hw : st.writeOk = true) :
    (saveNoteToFile .success st u note).1 = true ∧
    readAll (saveNoteToFile .success st u note).2 u =
      some (l ++ [metadataRecord note
        (generateFilename note.title note.type note.date.day)]) ∧
    (∀ fn : String,
      (metadataRecord note fn).id = note.id ∧
      (metadataRecord note fn).title = note.title ∧
      (metadataRecord note fn).type = note.type ∧
      (metadataRecord note fn).filename = some fn ∧
      (metadataRecord note fn).date = note.date ∧
      (metadataRecord note fn).tags = note.tags ∧
      (metadataRecord note fn).mood = note.mood ∧
      (metadataRecord note fn).duration = note.duration ∧
      (metadataRecord note fn).savedToFile = some true ∧
      (metadataRecord note fn).content = none ∧
      (metadataRecord note fn).audioData = none ∧
      (metadataRecord note fn).videoData = none) := by
  have h1 : saveNoteToFile .success st u note =
      (true,
        setNotes
          (writeFile st (subdirName note.type)
            (generateFilename note.title note.type note.date.day)
            (fileContentOf note)) u
          (some (.notesJson (l ++ [metadataRecord note
            (generateFilename note.title note.type note.date.day)])))) := by
    simp [saveNoteToFile, saveMetadataToLocalStorage, writeFile_notes,
      writeFile_writeOk, hl, hw]
  refine ⟨by rw [h1], ?_, ?_⟩
  · rw [h1]
    exact readAll_setNotes _ _ _
  · intro fn
    exact ⟨rfl, rfl, rfl, rfl, rfl, rfl, rfl, rfl, rfl, rfl, rfl, rfl⟩

/-- Claim C9, witness: the metadata shadow at a concrete text note on a
fresh healthy state. -/
theorem success_appends_metadata_shadow_witness :
    (saveNoteToFile .success st0 "alice" textNote).1 = true ∧
    readAll (saveNoteToFile .success st0 "alice" textNote).2 "alice" =
      some ([] ++ [metadataRecord textNote
        (generateFilename textNote.title textNote.type textNote.date.day)]) ∧
    (∀ fn : String,
      (metadataRecord textNote fn).id = textNote.id ∧
      (metadataRecord textNote fn).title = textNote.title ∧
      (metadataRecord textNote fn).type = textNote.type ∧
      (metadataRecord textNote fn).filename = some fn ∧
      (metadataRecord textNote fn).date = textNote.date ∧
      (metadataRecord textNote fn).tags = textNote.tags ∧
      (metadataRecord textNote fn).mood = textNote.mood ∧
      (metadataRecord textNote fn).duration = textNote.duration ∧
      (metadataRecord textNote fn).savedToFile = some true ∧
      (metadataRecord textNote fn).content = none ∧
      (metadataRecord textNote fn).audioData = none ∧
      (metadataRecord textNote fn).videoData = none) :=
  success_appends_metadata_shadow st0 "alice" textNote [] rfl rfl

/-- Claim C10: whenever the effective title (the argument when non-empty,
else the dialog's title state) trims to the empty string, `handleSave`
returns before touching storage: no record is appended and the state is
returned unchanged. -/
theorem handleSave_blank_title_noop (st : Store) (u : String)
    (ds : DialogState) (noteTitle : Option String)
    (noteContent : Option ContentArg) (durationArg : Option Nat)
    (thumbnail : Option Blob) (now : Timestamp) (nowMs : Nat)
    (h : jsTrim (finalTitleOf noteTitle ds.title) = "") :
    handleSave st u ds noteTitle noteContent durationArg thumbnail now nowMs =
      some st := by
  simp [handleSave, h]

/-- Claim C10, witness: a whitespace-only dialog title on a fresh state. -/
theorem handleSave_blank_title_noop_witness :
    handleSave st0 "alice"
      { title := "   ", content := "c", tags := "", mood := "", noteType := .text }
      none none none none ts0 5 = some st0 :=
  handleSave_blank_title_noop st0 "alice"
    { title := "   ", content := "c", tags := "", mood := "", noteType := .text }
    none none none none ts0 5 (by decide)

end Diary
